import Mathlib

/-!
Verification of the microcycle/session aggregation and standardization
pipeline of the physical-data module (`modules/fisicos.py`).

The embedding models the pandas/SQL data flow over exact rationals:

* a pandas cell that may be NaN/NULL is an `Option ℚ`;
* `groupby(...).sum()` skips NaN, so a group sum is the sum of the present
  values (`sumaOpcion`), and `.mean()` over a possibly-NaN column averages
  the present values (`promedioOpcion`);
* grouping keys are the distinct key tuples of the row list (`List.dedup`;
  pandas sorts group keys, but no property below depends on key order);
* dates are encoded as integers `yyyymmdd`, which preserves the calendar
  order used by every date comparison in the source;
* pandas `.str.strip()` / `.str.upper()` are `trimS` / `toUpperS` over the
  character list, and `astype(str)` renders a missing value as "nan"
  (`cadenaDeOpcion`).

Rows are modelled at the point where the source has already applied its
SQL `WHERE` clause / task-label mask: each pipeline takes the fetched row
list as a parameter.
-/

/-- A cell sum as computed by `groupby(...).sum()`: NaN cells are skipped
(an absent value contributes 0, and an all-absent group sums to 0). -/
def sumaOpcion (l : List (Option ℚ)) : ℚ :=
  (l.map (fun o => o.getD 0)).sum

/-- Arithmetic mean of a list of rationals (`Series.mean()` over a column
without missing values). -/
def promedio (l : List ℚ) : ℚ :=
  l.sum / l.length

/-- `Series.mean()` with pandas' default `skipna`: the mean of the present
values. -/
def promedioOpcion (l : List (Option ℚ)) : ℚ :=
  promedio (l.filterMap id)

/-- `Series.max()` with pandas' default `skipna`. -/
def maximoOpcion (l : List (Option ℚ)) : Option ℚ :=
  (l.filterMap id).max?

/-- pandas `.str.upper()`: uppercase every character. -/
def toUpperS (s : String) : String :=
  ⟨s.data.map Char.toUpper⟩

/-- pandas `.str.strip()`: drop whitespace from both ends. -/
def trimS (s : String) : String :=
  ⟨((s.data.dropWhile Char.isWhitespace).reverse.dropWhile Char.isWhitespace).reverse⟩

/-- `astype(str)` on a cell: a missing value (NaN) becomes the string
"nan". -/
def cadenaDeOpcion : Option String → String
  | none => "nan"
  | some s => s

/-- Number of occurrences of `v` in `l` (the frequency used by
`Series.mode()`). -/
def cuenta (l : List ℚ) (v : ℚ) : ℕ :=
  (l.filter (fun x => decide (x = v))).length

/-- The largest frequency occurring in `l`. -/
def maxCuenta (l : List ℚ) : ℕ :=
  (l.map (cuenta l)).foldr max 0

/-- The values of maximal frequency (the value set of `Series.mode()`). -/
def modas (l : List ℚ) : List ℚ :=
  l.dedup.filter (fun v => cuenta l v == maxCuenta l)

/-- `Series.mode().iloc[0]`: `mode()` returns the tied most-frequent values
in ascending order, so `iloc[0]` is the smallest of them. -/
def valorMasFrecuente (l : List ℚ) : Option ℚ :=
  (modas l).min?

/-- One row of `Datos_Fisicos_Partido` (match telemetry), after numeric
coercion: one player's measurements for one task segment of one match. -/
structure FilaPartido where
  jornada : String
  partido : String
  tarea : String
  fecha : ℤ
  jugador : String
  minutos : Option ℚ
  dTotal : Option ℚ
  dHSR : Option ℚ
  dSprint : Option ℚ
  velMax : Option ℚ
deriving DecidableEq

/-- One row of `Datos_Fisicos_Entreno` as fetched by
`obtener_datos_microciclo_equipo` (`Tarea = 'Total'`, non-empty player):
`distancia` is the single distance column selected by `tipo_distancia`. -/
structure FilaEntreno where
  fecha : ℤ
  situacion : String
  jugador : String
  minutos : Option ℚ
  distancia : Option ℚ
deriving DecidableEq

/-- One row of the `Resultado` lookup (`_obtener_resultados`), with
`Jornada` already normalized to upper case. -/
structure FilaResultado where
  jornada : String
  codigo : String
  resultado : String
deriving DecidableEq

/-- `EligiblePlayerAggregate` for the collective bars: one player's summed
metrics for one match (fisicos.py lines 150-158, groupby
`["Jornada", "Partido", "Jugador"]` with `sum`). -/
structure AgregadoJugador where
  jornada : String
  partido : String
  jugador : String
  minutos : ℚ
  dTotal : ℚ
  dHSR : ℚ
  dSprint : ℚ
deriving DecidableEq

/-- The groupby of fisicos.py lines 150-158: one `AgregadoJugador` per
distinct `(Jornada, Partido, Jugador)` key, summing the four metrics. -/
def agruparJugadores (rows : List FilaPartido) : List AgregadoJugador :=
  ((rows.map (fun r => (r.jornada, r.partido, r.jugador))).dedup).map (fun k =>
    let g := rows.filter (fun r => decide ((r.jornada, r.partido, r.jugador) = k))
    { jornada := k.1
      partido := k.2.1
      jugador := k.2.2
      minutos := sumaOpcion (g.map (·.minutos))
      dTotal := sumaOpcion (g.map (·.dTotal))
      dHSR := sumaOpcion (g.map (·.dHSR))
      dSprint := sumaOpcion (g.map (·.dSprint)) })

/-- fisicos.py line 163: `df_jugadores[df_jugadores["Minutos_jugados"] > 70]`. -/
def filtrarMayor70 (l : List AgregadoJugador) : List AgregadoJugador :=
  l.filter (fun a => decide (70 < a.minutos))

/-- fisicos.py line 170: `factor_estandarizacion = 94.0`. -/
def factor_estandarizacion : ℚ := 94

/-- A player-match aggregate with the three added `_Std` columns. -/
structure AgregadoStd extends AgregadoJugador where
  dTotalStd : ℚ
  dHSRStd : ℚ
  dSprintStd : ℚ
deriving DecidableEq

/-- fisicos.py lines 171-173: each `_Std` column is
`distancia / Minutos_jugados * factor_estandarizacion`. -/
def estandarizar (a : AgregadoJugador) : AgregadoStd :=
  { toAgregadoJugador := a
    dTotalStd := a.dTotal / a.minutos * factor_estandarizacion
    dHSRStd := a.dHSR / a.minutos * factor_estandarizacion
    dSprintStd := a.dSprint / a.minutos * factor_estandarizacion }

/-- The standardized player aggregates of `generar_barras_colectivas`
(group, keep `> 70` minutes, standardize; lines 150-173). -/
def barrasJugadoresStd (rows : List FilaPartido) : List AgregadoStd :=
  (filtrarMayor70 (agruparJugadores rows)).map estandarizar

/-- fisicos.py line 222: `sorted(df_plot["J_orden"].unique())`. -/
def jornadasUnicas (l : List ℕ) : List ℕ :=
  (l.dedup).insertionSort (· ≤ ·)

/-- fisicos.py lines 225-230: ascending round numbers below 8, then 9,
then 8, then the rounds above 9. -/
def ordenJornadas (ju : List ℕ) : List ℕ :=
  (ju.filter (fun j => decide (j < 8)))
    ++ (if 9 ∈ ju then [9] else [])
    ++ (if 8 ∈ ju then [8] else [])
    ++ (ju.filter (fun j => decide (9 < j)))

/-- The left-merge on `Jornada` with the results table (fisicos.py lines
211-215): the outcome string joined onto a round, absent when the round
has no row in the lookup. -/
def resultadoDe (res : List FilaResultado) (j : String) : Option String :=
  ((res.filter (fun r => decide (r.jornada = j))).map (·.resultado)).head?

/-- fisicos.py line 246: `astype(str).str.strip().str.upper()`. -/
def normalizaResultado (s : String) : String :=
  toUpperS (trimS s)

/-- fisicos.py lines 240-244: the fixed color table. -/
def mapaColor (s : String) : Option String :=
  if s = "V" then some "#4CAF50"
  else if s = "E" then some "#FFC107"
  else if s = "D" then some "#DC143C"
  else none

/-- fisicos.py line 248: `.map(color_map).fillna("#9e9e9e")`. -/
def colorFinal (s : String) : String :=
  (mapaColor s).getD "#9e9e9e"

/-- The `Resultado` label a round ends up with (fisicos.py lines 204-218
and 246): "N/A" for every round when the results table is empty, otherwise
the joined outcome — a missing join result passes through `astype(str)` as
"nan" — normalized by strip + upper. -/
def resultadoAnotado (res : List FilaResultado) (j : String) : String :=
  if res = [] then normalizaResultado "N/A"
  else normalizaResultado (cadenaDeOpcion (resultadoDe res j))

/-- The bar color a round ends up with (fisicos.py line 248). -/
def colorAnotado (res : List FilaResultado) (j : String) : String :=
  colorFinal (resultadoAnotado res j)

/-- A per-player aggregate keyed by player alone: the groupby of the
scatter view (fisicos.py lines 409-414) and of the previous-match
computation (lines 1013-1018), both `groupby('Jugador')` with `sum`. -/
structure AgregadoPrevio where
  jugador : String
  dTotal : ℚ
  dHSR : ℚ
  dSprint : ℚ
  minutos : ℚ
deriving DecidableEq

/-- `groupby('Jugador')` summing minutes and the three distances. -/
def agruparPorJugador (rows : List FilaPartido) : List AgregadoPrevio :=
  ((rows.map (·.jugador)).dedup).map (fun j =>
    let g := rows.filter (fun r => decide (r.jugador = j))
    { jugador := j
      dTotal := sumaOpcion (g.map (·.dTotal))
      dHSR := sumaOpcion (g.map (·.dHSR))
      dSprint := sumaOpcion (g.map (·.dSprint))
      minutos := sumaOpcion (g.map (·.minutos)) })

/-- fisicos.py line 417: scatter keeps players with `> 70` summed minutes. -/
def filtroScatter (l : List AgregadoPrevio) : List AgregadoPrevio :=
  l.filter (fun a => decide (70 < a.minutos))

/-- One row of the `generar_barras_individuales` groupby (fisicos.py lines
477-483): mean distances, max speed, summed minutes per player. -/
structure AgregadoIndividual where
  jugador : String
  dTotalProm : ℚ
  dHSRProm : ℚ
  dSprintProm : ℚ
  velMax : Option ℚ
  minutos : ℚ
deriving DecidableEq

/-- fisicos.py lines 477-483: `groupby('Jugador')` with mean distances,
max `Velocidad_Maxima` and summed `Minutos_jugados`. -/
def agruparIndividual (rows : List FilaPartido) : List AgregadoIndividual :=
  ((rows.map (·.jugador)).dedup).map (fun j =>
    let g := rows.filter (fun r => decide (r.jugador = j))
    { jugador := j
      dTotalProm := promedioOpcion (g.map (·.dTotal))
      dHSRProm := promedioOpcion (g.map (·.dHSR))
      dSprintProm := promedioOpcion (g.map (·.dSprint))
      velMax := maximoOpcion (g.map (·.velMax))
      minutos := sumaOpcion (g.map (·.minutos)) })

/-- fisicos.py line 486:
`df_individual[df_individual['Minutos_jugados'] >= 90]`. -/
def filtroIndividual (l : List AgregadoIndividual) : List AgregadoIndividual :=
  l.filter (fun a => decide (90 ≤ a.minutos))

/-- The distance column selected by the `tipo_distancia` argument of
`obtener_datos_microciclo_equipo`. -/
inductive TipoDistancia
  | total
  | hsr
  | sprint
deriving DecidableEq

/-- One entry of the per-round override table `config_especial`
(fisicos.py lines 851-868). -/
structure ConfigEspecial where
  fecha_inicio : Option ℤ
  partido_previo_custom : Option String
  mostrar_partido_previo : Option Bool
deriving DecidableEq

/-- fisicos.py lines 851-868: the hardcoded per-round overrides, dates
encoded as `yyyymmdd`. -/
def config_especial : String → Option ConfigEspecial
  | "J5" => some { fecha_inicio := some 20240908
                   partido_previo_custom := none
                   mostrar_partido_previo := some false }
  | "J6" => some { fecha_inicio := some 20240922
                   partido_previo_custom := none
                   mostrar_partido_previo := some false }
  | "J8" => some { fecha_inicio := none
                   partido_previo_custom := some "J9"
                   mostrar_partido_previo := some true }
  | "J9" => some { fecha_inicio := some 20241013
                   partido_previo_custom := none
                   mostrar_partido_previo := some false }
  | _ => none

/-- fisicos.py lines 871-875: the reference previous round — the custom
override if configured, else `J(n-1)` when `n > 1`, else nothing. -/
def jornadaPrevia (jnum : String) (jint : ℤ) : Option String :=
  match (config_especial jnum).bind (·.partido_previo_custom) with
  | some p => some p
  | none => if 1 < jint then some ("J" ++ toString (jint - 1)) else none

/-- fisicos.py line 878: `config_jornada.get('mostrar_partido_previo', True)`. -/
def mostrarPartidoPrevio (jnum : String) : Bool :=
  ((config_especial jnum).bind (·.mostrar_partido_previo)).getD true

/-- fisicos.py line 879: `config_jornada.get('fecha_inicio', None)`. -/
def fechaInicioCustom (jnum : String) : Option ℤ :=
  (config_especial jnum).bind (·.fecha_inicio)

/-- fisicos.py lines 1001-1002: summed `Minutos_jugados` of one player in
the previous match's rows. -/
def sumMinutosJugador (rows : List FilaPartido) (j : String) : ℚ :=
  sumaOpcion ((rows.filter (fun r => decide (r.jugador = j))).map (·.minutos))

/-- fisicos.py line 1005: the players whose summed minutes exceed 70. -/
def jugadoresValidos (rows : List FilaPartido) : List String :=
  ((rows.map (·.jugador)).dedup).filter (fun j =>
    decide (70 < sumMinutosJugador rows j))

/-- fisicos.py lines 1010-1018: restrict to the rows of valid players and
group by player, summing distances and minutes. -/
def previoValidos (rows : List FilaPartido) : List AgregadoPrevio :=
  agruparPorJugador
    (rows.filter (fun r => decide (r.jugador ∈ jugadoresValidos rows)))

/-- A previous-match player aggregate with the added `_std` columns. -/
structure PrevioStd extends AgregadoPrevio where
  dTotalStd : ℚ
  dHSRStd : ℚ
  dSprintStd : ℚ
deriving DecidableEq

/-- fisicos.py lines 1021-1023: `_std = distancia / Minutos_jugados * 94`. -/
def estandarizarPrevio (a : AgregadoPrevio) : PrevioStd :=
  { toAgregadoPrevio := a
    dTotalStd := a.dTotal / a.minutos * 94
    dHSRStd := a.dHSR / a.minutos * 94
    dSprintStd := a.dSprint / a.minutos * 94 }

/-- The standardized per-player aggregates of the previous match. -/
def previoEstandarizado (rows : List FilaPartido) : List PrevioStd :=
  (previoValidos rows).map estandarizarPrevio

/-- The `_std` column picked by `tipo_distancia` (fisicos.py lines
1026-1031). -/
def distanciaStdSegunTipo (t : TipoDistancia) (a : PrevioStd) : ℚ :=
  match t with
  | TipoDistancia.total => a.dTotalStd
  | TipoDistancia.hsr => a.dHSRStd
  | TipoDistancia.sprint => a.dSprintStd

/-- fisicos.py lines 948 and 1008-1031: `distancia_partido_previo` starts
at 0 and becomes the mean of the selected `_std` column only when some
player passed the `> 70` filter. -/
def distanciaPartidoPrevio (rows : List FilaPartido) (t : TipoDistancia) : ℚ :=
  if jugadoresValidos rows = [] then 0
  else promedio ((previoEstandarizado rows).map (distanciaStdSegunTipo t))

/-- fisicos.py lines 996-998: the text after the literal "contra" in the
free-text match description, trimmed; "Rival desconocido" otherwise. -/
def extraerRival (s : String) : String :=
  let partes := s.splitOn "contra"
  if 2 ≤ partes.length then (partes.getLastD s).trim
  else "Rival desconocido"

/-- The opponent of the previous match, read from its first row. -/
def rivalPrevio (rows : List FilaPartido) : String :=
  match rows.head? with
  | some r => extraerRival r.partido
  | none => "Rival desconocido"

/-- One point of a composed microcycle (`datos_microciclo` entries,
fisicos.py lines 1070-1115). -/
structure EntradaMicro where
  situacion : String
  fecha : ℤ
  distancia : ℚ
  numRegistros : ℕ
  tipo : String
deriving DecidableEq

/-- fisicos.py lines 952-1076: the previous-match entry. It exists only
when a previous round is determined, `mostrar_partido_previo` is set, the
fetch returned rows (`fecha_partido_previo` is set from the first row) and
the computed standardized average is positive. -/
def entradasPartidoPrevio (jnum : String) (jint : ℤ) (rowsPrev : List FilaPartido)
    (t : TipoDistancia) : List EntradaMicro :=
  match jornadaPrevia jnum jint with
  | none => []
  | some jprev =>
    if mostrarPartidoPrevio jnum then
      match rowsPrev.head? with
      | none => []
      | some r0 =>
        let dist := distanciaPartidoPrevio rowsPrev t
        if 0 < dist then
          [{ situacion := "Partido " ++ jprev ++ "<br>VS " ++ rivalPrevio rowsPrev
             fecha := r0.fecha
             distancia := dist
             numRegistros := (jugadoresValidos rowsPrev).length
             tipo := "partido" }]
        else []
    else []

/-- fisicos.py line 1099: `umbral_70_pct = valor_mas_frecuente * 0.7`. -/
def umbralModa (vmf : ℚ) : ℚ :=
  vmf * ((7 : ℚ) / 10)

/-- fisicos.py line 1102: keep the rows of the group whose minutes are `>=`
the threshold (a NaN minutes cell compares false and is dropped). -/
def filtraModa (grupo : List FilaEntreno) (vmf : ℚ) : List FilaEntreno :=
  grupo.filter (fun r =>
    match r.minutos with
    | some v => decide (umbralModa vmf ≤ v)
    | none => false)

/-- fisicos.py lines 1091-1116: one `(Situacion, Fecha)` training group →
mode of the non-null minutes, 70%-of-mode filter, raw mean of the selected
distance column over the surviving rows; the group is skipped when the
minutes series is empty or nothing survives the filter. -/
def procesaGrupo (k : String × ℤ) (grupo : List FilaEntreno) : Option EntradaMicro :=
  match valorMasFrecuente (grupo.filterMap (·.minutos)) with
  | none => none
  | some vmf =>
    let filtrado := filtraModa grupo vmf
    if filtrado = [] then none
    else some { situacion := k.1
                fecha := k.2
                distancia := promedioOpcion (filtrado.map (·.distancia))
                numRegistros := filtrado.length
                tipo := "entrenamiento" }

/-- fisicos.py lines 1080-1116: apply the custom start-date cut, group the
training rows by `(Situacion, Fecha)` and process each group. -/
def entradasEntrenamiento (rows : List FilaEntreno) (fechaIni : Option ℤ) :
    List EntradaMicro :=
  let rowsF : List FilaEntreno := match fechaIni with
    | some d => rows.filter (fun r => decide (d ≤ r.fecha))
    | none => rows
  ((rowsF.map (fun r => (r.situacion, r.fecha))).dedup).filterMap (fun k =>
    procesaGrupo k (rowsF.filter (fun r => decide ((r.situacion, r.fecha) = k))))

/-- The date order used to sort the composed microcycle. -/
def fechaLe (a b : EntradaMicro) : Prop :=
  a.fecha ≤ b.fecha

instance : DecidableRel fechaLe :=
  fun a b => Int.decLe a.fecha b.fecha

/-- fisicos.py line 1132: `df_datos.sort_values('Fecha')`. -/
def ordenaPorFecha (l : List EntradaMicro) : List EntradaMicro :=
  l.insertionSort fechaLe

/-- The composed microcycle sequence for a round: the (possible)
previous-match entry plus the per-group training entries, ordered by date
(fisicos.py lines 1066-1132). -/
def datosMicrociclo (jnum : String) (jint : ℤ) (rowsPrev : List FilaPartido)
    (rowsEnt : List FilaEntreno) (t : TipoDistancia) : List EntradaMicro :=
  ordenaPorFecha
    (entradasPartidoPrevio jnum jint rowsPrev t
      ++ entradasEntrenamiento rowsEnt (fechaInicioCustom jnum))

/-- The shape of a public operation's return value: its key set and the
value of its `status` key, if any. -/
structure Respuesta where
  claves : List String
  status : Option String
deriving DecidableEq

/-- `generar_barras_colectivas` returns (fisicos.py lines 273-289 and
295-298). -/
def respuesta_barras_colectivas (err : Bool) : Respuesta :=
  if err then { claves := ["status", "message"], status := some "error" }
  else { claves := ["status", "data", "message"], status := some "success" }

/-- `obtener_lista_partidos` returns (fisicos.py lines 348-354 and
358-361): the success envelope has no `message` key. -/
def respuesta_lista_partidos (err : Bool) : Respuesta :=
  if err then { claves := ["status", "message"], status := some "error" }
  else { claves := ["status", "data"], status := some "success" }

/-- `generar_scatter_individual` returns (fisicos.py lines 439-449 and
455-458). -/
def respuesta_scatter_individual (err : Bool) : Respuesta :=
  if err then { claves := ["status", "message"], status := some "error" }
  else { claves := ["status", "data", "message"], status := some "success" }

/-- `generar_barras_individuales` returns (fisicos.py lines 540-544 and
548-551). -/
def respuesta_barras_individuales (err : Bool) : Respuesta :=
  if err then { claves := ["status", "message"], status := some "error" }
  else { claves := ["status", "data", "message"], status := some "success" }

/-- `generar_evolutivo` returns (fisicos.py lines 653-657 and 661-664). -/
def respuesta_evolutivo (err : Bool) : Respuesta :=
  if err then { claves := ["status", "message"], status := some "error" }
  else { claves := ["status", "data", "message"], status := some "success" }

/-- `get_resumen_fisico` returns (fisicos.py lines 677-685 and 689): a bare
summary dict on success and `{}` on error — no `status`, no `message`. -/
def respuesta_resumen_fisico (err : Bool) : Respuesta :=
  if err then { claves := [], status := none }
  else { claves := ["total_partidos", "promedio_distancia", "promedio_velocidad",
                    "mejor_partido", "ultima_actualizacion"]
         status := none }

/-- `obtener_lista_microciclos` returns (fisicos.py lines 793-799 and
805-808). -/
def respuesta_lista_microciclos (err : Bool) : Respuesta :=
  if err then { claves := ["status", "message"], status := some "error" }
  else { claves := ["status", "data", "message"], status := some "success" }

/-- `obtener_datos_microciclo_equipo` returns (fisicos.py lines 1169-1183
and 1192-1195). -/
def respuesta_microciclo_equipo (err : Bool) : Respuesta :=
  if err then { claves := ["status", "message"], status := some "error" }
  else { claves := ["status", "data", "message"], status := some "success" }

/-- C4: amended — the match-half aggregation and the per-match scatter keep
exactly the groups with summed minutes strictly greater than 70, while the
top-individual-players leaderboard keeps exactly the players with summed
minutes greater than or equal to 90. -/
theorem umbrales_fijos_eligibilidad (l1 : List AgregadoJugador) (a1 : AgregadoJugador)
    (l2 : List AgregadoPrevio) (a2 : AgregadoPrevio)
    (l3 : List AgregadoIndividual) (a3 : AgregadoIndividual) :
    (a1 ∈ filtrarMayor70 l1 ↔ a1 ∈ l1 ∧ 70 < a1.minutos) ∧
    (a2 ∈ filtroScatter l2 ↔ a2 ∈ l2 ∧ 70 < a2.minutos) ∧
    (a3 ∈ filtroIndividual l3 ↔ a3 ∈ l3 ∧ 90 ≤ a3.minutos) := by
  refine ⟨?_, ?_, ?_⟩ <;>
    simp [filtrarMayor70, filtroScatter, filtroIndividual, List.mem_filter]

/-- C4: counterexample — a player whose summed minutes equal exactly 90 is
kept (not excluded) by the leaderboard filter, contradicting the claimed
strict `> N` rule for N = 90. -/
theorem umbral_individuales_90_contraejemplo :
    ({ jugador := "A", dTotalProm := 100, dHSRProm := 50, dSprintProm := 20,
       velMax := some 30, minutos := 90 } : AgregadoIndividual) ∈
      filtroIndividual
        [{ jugador := "A", dTotalProm := 100, dHSRProm := 50, dSprintProm := 20,
           velMax := some 30, minutos := 90 }] ∧
    ({ jugador := "A", dTotalProm := 100, dHSRProm := 50, dSprintProm := 20,
       velMax := some 30, minutos := 90 } : AgregadoIndividual).minutos = 90 := by
  refine ⟨?_, rfl⟩
  simp [filtroIndividual]

/-- C8: counterexample — `get_resumen_fisico` returns a bare summary dict
with no `status` key at all (and `{}` on error), and the success envelope
of `obtener_lista_partidos` has no `message` key, contradicting the claim
that every public operation returns the uniform envelope. -/
theorem sobre_resumen_contraejemplo :
    "status" ∉ (respuesta_resumen_fisico false).claves ∧
    "status" ∉ (respuesta_resumen_fisico true).claves ∧
    (respuesta_resumen_fisico false).status = none ∧
    "message" ∉ (respuesta_lista_partidos false).claves := by
  decide

/-- C8: amended — every public operation except `get_resumen_fisico`
returns an envelope whose `status` is "success" or "error", with `data`
present exactly on success and `message` present on error (and on success
everywhere except `obtener_lista_partidos`); `get_resumen_fisico` returns
a bare summary dict with no `status` and no `message`. -/
theorem sobres_respuesta (b : Bool) :
    ("status" ∈ (respuesta_barras_colectivas b).claves ∧
      (respuesta_barras_colectivas b).status = some (if b then "error" else "success") ∧
      ("data" ∈ (respuesta_barras_colectivas b).claves ↔ b = false) ∧
      "message" ∈ (respuesta_barras_colectivas b).claves) ∧
    ("status" ∈ (respuesta_scatter_individual b).claves ∧
      (respuesta_scatter_individual b).status = some (if b then "error" else "success") ∧
      ("data" ∈ (respuesta_scatter_individual b).claves ↔ b = false) ∧
      "message" ∈ (respuesta_scatter_individual b).claves) ∧
    ("status" ∈ (respuesta_barras_individuales b).claves ∧
      (respuesta_barras_individuales b).status = some (if b then "error" else "success") ∧
      ("data" ∈ (respuesta_barras_individuales b).claves ↔ b = false) ∧
      "message" ∈ (respuesta_barras_individuales b).claves) ∧
    ("status" ∈ (respuesta_evolutivo b).claves ∧
      (respuesta_evolutivo b).status = some (if b then "error" else "success") ∧
      ("data" ∈ (respuesta_evolutivo b).claves ↔ b = false) ∧
      "message" ∈ (respuesta_evolutivo b).claves) ∧
    ("status" ∈ (respuesta_lista_microciclos b).claves ∧
      (respuesta_lista_microciclos b).status = some (if b then "error" else "success") ∧
      ("data" ∈ (respuesta_lista_microciclos b).claves ↔ b = false) ∧
      "message" ∈ (respuesta_lista_microciclos b).claves) ∧
    ("status" ∈ (respuesta_microciclo_equipo b).claves ∧
      (respuesta_microciclo_equipo b).status = some (if b then "error" else "success") ∧
      ("data" ∈ (respuesta_microciclo_equipo b).claves ↔ b = false) ∧
      "message" ∈ (respuesta_microciclo_equipo b).claves) ∧
    ("status" ∈ (respuesta_lista_partidos b).claves ∧
      (respuesta_lista_partidos b).status = some (if b then "error" else "success") ∧
      ("data" ∈ (respuesta_lista_partidos b).claves ↔ b = false) ∧
      ("message" ∈ (respuesta_lista_partidos b).claves ↔ b = true)) ∧
    ("status" ∉ (respuesta_resumen_fisico b).claves ∧
      (respuesta_resumen_fisico b).status = none) := by
  cases b <;> refine ⟨?_, ?_, ?_, ?_, ?_, ?_, ?_, ?_⟩ <;> decide

/-- C7: counterexample — with a non-empty results table that lacks a row
for round "J2", the joined outcome is missing and the produced label is
"NAN" (the string form of the missing value), not the claimed explicit
"N/A"; the color does fall back to neutral gray. -/
theorem resultado_faltante_contraejemplo :
    resultadoDe [{ jornada := "J1", codigo := "1-0", resultado := "V" }] "J2" = none ∧
    resultadoAnotado [{ jornada := "J1", codigo := "1-0", resultado := "V" }] "J2" = "NAN" ∧
    "NAN" ≠ "N/A" ∧
    colorAnotado [{ jornada := "J1", codigo := "1-0", resultado := "V" }] "J2" = "#9e9e9e" := by
  decide

/-- C7: amended — a round with a missing or unmapped outcome always gets
the neutral gray color and the operation never fails, but the label is the
normalized string form of whatever was joined: "NAN" for a missing join
when the results table is non-empty, "N/A" only when the whole results
table is empty; mapped outcomes get the fixed colors V green, E amber,
D crimson. -/
theorem anotacion_resultados (res : List FilaResultado) (j s : String) :
    (res = [] → resultadoAnotado res j = "N/A" ∧ colorAnotado res j = "#9e9e9e") ∧
    (res ≠ [] → resultadoDe res j = none →
      resultadoAnotado res j = "NAN" ∧ colorAnotado res j = "#9e9e9e") ∧
    (res ≠ [] → resultadoDe res j = some s →
      resultadoAnotado res j = normalizaResultado s) ∧
    (normalizaResultado s ≠ "V" → normalizaResultado s ≠ "E" →
      normalizaResultado s ≠ "D" → colorFinal (normalizaResultado s) = "#9e9e9e") ∧
    colorFinal "V" = "#4CAF50" ∧ colorFinal "E" = "#FFC107" ∧
    colorFinal "D" = "#DC143C" := by
  refine ⟨?_, ?_, ?_, ?_, by decide, by decide, by decide⟩
  · intro h
    subst h
    unfold colorAnotado resultadoAnotado
    rw [if_pos rfl]
    exact ⟨by decide, by decide⟩
  · intro hne hnone
    unfold colorAnotado resultadoAnotado
    rw [if_neg hne, hnone]
    exact ⟨by decide, by decide⟩
  · intro hne hsome
    unfold resultadoAnotado
    rw [if_neg hne, hsome]
    rfl
  · intro h1 h2 h3
    unfold colorFinal mapaColor
    rw [if_neg h1, if_neg h2, if_neg h3]
    rfl

/-- C7: witness — the amended statement applied to concrete inputs: the
empty table gives "N/A" and gray, a missing round in a non-empty table
gives "NAN" and gray, a present "D" outcome passes through normalization,
and an unmapped code maps to gray. -/
theorem anotacion_resultados_witness :
    (resultadoAnotado ([] : List FilaResultado) "J1" = "N/A" ∧
      colorAnotado ([] : List FilaResultado) "J1" = "#9e9e9e") ∧
    (resultadoDe [{ jornada := "J3", codigo := "0-1", resultado := "D" }] "J4" = none ∧
      resultadoAnotado [{ jornada := "J3", codigo := "0-1", resultado := "D" }] "J4" = "NAN" ∧
      colorAnotado [{ jornada := "J3", codigo := "0-1", resultado := "D" }] "J4" = "#9e9e9e") ∧
    (resultadoAnotado [{ jornada := "J3", codigo := "0-1", resultado := "D" }] "J3" =
      normalizaResultado "D") ∧
    colorFinal (normalizaResultado "x") = "#9e9e9e" := by
  have h1 := anotacion_resultados ([] : List FilaResultado) "J1" "x"
  have h2 := anotacion_resultados [{ jornada := "J3", codigo := "0-1", resultado := "D" }] "J4" "x"
  have h3 := anotacion_resultados [{ jornada := "J3", codigo := "0-1", resultado := "D" }] "J3" "D"
  refine ⟨h1.1 rfl, ?_, ?_, ?_⟩
  · exact ⟨by decide, h2.2.1 (by decide) (by decide)⟩
  · exact h3.2.2.1 (by decide) (by decide)
  · exact h1.2.2.2.1 (by decide) (by decide) (by decide)

/-- C2: within one training group, once the mode of the non-null minutes
series is `vmf`, the eligibility filter keeps exactly the rows whose
minutes are present and at least `0.7 * vmf`. -/
theorem filtro_moda_70pct (grupo : List FilaEntreno) (vmf : ℚ)
    (_hm : valorMasFrecuente (grupo.filterMap (·.minutos)) = some vmf)
    (r : FilaEntreno) :
    r ∈ filtraModa grupo vmf ↔
      r ∈ grupo ∧ ∃ v, r.minutos = some v ∧ umbralModa vmf ≤ v := by
  unfold filtraModa
  rw [List.mem_filter]
  constructor
  · rintro ⟨hg, hp⟩
    refine ⟨hg, ?_⟩
    cases hmin : r.minutos with
    | none => rw [hmin] at hp; cases hp
    | some v => rw [hmin] at hp; exact ⟨v, rfl, of_decide_eq_true hp⟩
  · rintro ⟨hg, v, hv, hle⟩
    refine ⟨hg, ?_⟩
    rw [hv]
    exact decide_eq_true hle

lemma le_foldr_max_nat {xs : List ℕ} {x : ℕ} (hx : x ∈ xs) : x ≤ xs.foldr max 0 := by
  induction xs with
  | nil => cases hx
  | cons a as ih =>
    rcases List.mem_cons.mp hx with rfl | hx'
    · exact le_max_left _ _
    · exact le_trans (ih hx') (le_max_right _ _)

lemma cuenta_le_maxCuenta {l : List ℚ} {w : ℚ} (hw : w ∈ l) :
    cuenta l w ≤ maxCuenta l :=
  le_foldr_max_nat (List.mem_map_of_mem (cuenta l) hw)

lemma mem_modas {l : List ℚ} {v : ℚ} :
    v ∈ modas l ↔ v ∈ l ∧ cuenta l v = maxCuenta l := by
  simp [modas, List.mem_filter, List.mem_dedup]

lemma valorMasFrecuente_spec {l : List ℚ} {v : ℚ}
    (h : valorMasFrecuente l = some v) :
    v ∈ l ∧ (∀ w ∈ l, cuenta l w ≤ cuenta l v) ∧
      (∀ w ∈ l, cuenta l w = cuenta l v → v ≤ w) := by
  unfold valorMasFrecuente at h
  have hmem : v ∈ modas l := List.min?_mem (fun a b => min_choice a b) h
  have hmin : ∀ w ∈ modas l, v ≤ w := by
    intro w hw
    exact (List.le_min?_iff (fun _ _ _ => le_min_iff) h).1 (le_refl v) w hw
  obtain ⟨hvl, hvc⟩ := mem_modas.mp hmem
  refine ⟨hvl, ?_, ?_⟩
  · intro w hw
    rw [hvc]
    exact cuenta_le_maxCuenta hw
  · intro w hw hcw
    exact hmin w (mem_modas.mpr ⟨hw, by rw [hcw, hvc]⟩)

/-- C10: the `valor_mas_frecuente` a training group's eligibility threshold
is computed from is a most frequent value of the group's non-null minutes
series, and in case of a tie in frequency it is the smallest tied value;
the threshold is 0.7 times it. -/
theorem moda_empate_minimo (grupo : List FilaEntreno) (v : ℚ)
    (h : valorMasFrecuente (grupo.filterMap (·.minutos)) = some v) :
    v ∈ grupo.filterMap (·.minutos) ∧
    (∀ w ∈ grupo.filterMap (·.minutos),
      cuenta (grupo.filterMap (·.minutos)) w ≤ cuenta (grupo.filterMap (·.minutos)) v) ∧
    (∀ w ∈ grupo.filterMap (·.minutos),
      cuenta (grupo.filterMap (·.minutos)) w = cuenta (grupo.filterMap (·.minutos)) v →
        v ≤ w) ∧
    umbralModa v = v * ((7 : ℚ) / 10) := by
  obtain ⟨h1, h2, h3⟩ := valorMasFrecuente_spec h
  exact ⟨h1, h2, h3, rfl⟩

/-- Concrete training group with minutes `[60, 60, 90, 90, 45]`: the
frequencies of 60 and 90 are tied. -/
def grupoEmpate : List FilaEntreno :=
  [{ fecha := 20240902, situacion := "MD-3", jugador := "A", minutos := some 60,
     distancia := some 100 },
   { fecha := 20240902, situacion := "MD-3", jugador := "B", minutos := some 60,
     distancia := some 110 },
   { fecha := 20240902, situacion := "MD-3", jugador := "C", minutos := some 90,
     distancia := some 120 },
   { fecha := 20240902, situacion := "MD-3", jugador := "D", minutos := some 90,
     distancia := some 130 },
   { fecha := 20240902, situacion := "MD-3", jugador := "E", minutos := some 45,
     distancia := some 140 }]

/-- C10 witness: on `[60, 60, 90, 90, 45]` both 60 and 90 occur twice, the
pipeline picks 60, and the threshold is 42. -/
theorem moda_empate_minimo_witness :
    valorMasFrecuente (grupoEmpate.filterMap (·.minutos)) = some 60 ∧
    cuenta (grupoEmpate.filterMap (·.minutos)) 90 =
      cuenta (grupoEmpate.filterMap (·.minutos)) 60 ∧
    (60 : ℚ) ≤ 90 ∧
    umbralModa 60 = 42 := by
  have h := moda_empate_minimo grupoEmpate 60 (by decide)
  exact ⟨by decide, by decide, h.2.2.1 90 (by decide) (by decide),
    by norm_num [umbralModa]⟩

lemma jornadasUnicas_sorted (l : List ℕ) :
    List.Sorted (· < ·) (jornadasUnicas l) := by
  have hs : List.Sorted (· ≤ ·) (jornadasUnicas l) :=
    List.sorted_insertionSort _ _
  have hn : (jornadasUnicas l).Nodup :=
    ((List.perm_insertionSort _ _).nodup_iff).2 (List.nodup_dedup l)
  exact hs.lt_of_le hn

lemma mem_jornadasUnicas {l : List ℕ} {x : ℕ} :
    x ∈ jornadasUnicas l ↔ x ∈ l := by
  unfold jornadasUnicas
  rw [List.mem_insertionSort, List.mem_dedup]

/-- C3: when rounds 8 and 9 both occur in the input, the displayed round
order is some list with 9 immediately before 8, and the remaining rounds —
exactly those different from 8 and 9 — appear in ascending numeric order. -/
theorem orden_jornadas_9_antes_8 (l : List ℕ) (h8 : 8 ∈ l) (h9 : 9 ∈ l) :
    ∃ a b, ordenJornadas (jornadasUnicas l) = a ++ 9 :: 8 :: b ∧
      List.Sorted (· < ·) (a ++ b) ∧ (∀ x ∈ a ++ b, x ≠ 8 ∧ x ≠ 9) := by
  have h8u : 8 ∈ jornadasUnicas l := mem_jornadasUnicas.mpr h8
  have h9u : 9 ∈ jornadasUnicas l := mem_jornadasUnicas.mpr h9
  refine ⟨(jornadasUnicas l).filter (fun j => decide (j < 8)),
          (jornadasUnicas l).filter (fun j => decide (9 < j)), ?_, ?_, ?_⟩
  · unfold ordenJornadas
    rw [if_pos h9u, if_pos h8u]
    simp
  · have hsort := jornadasUnicas_sorted l
    refine List.pairwise_append.mpr ⟨hsort.filter _, hsort.filter _, ?_⟩
    intro x hx y hy
    have hx8 : x < 8 := of_decide_eq_true (List.mem_filter.mp hx).2
    have hy9 : 9 < y := of_decide_eq_true (List.mem_filter.mp hy).2
    omega
  · intro x hx
    rcases List.mem_append.mp hx with hx | hx
    · have : x < 8 := of_decide_eq_true (List.mem_filter.mp hx).2
      omega
    · have : 9 < x := of_decide_eq_true (List.mem_filter.mp hx).2
      omega

/-- C3 witness: with rounds `[1, 2, 8, 9, 10, 3]` the produced order is
`[1, 2, 3, 9, 8, 10]` — 9 immediately before 8, the rest ascending. -/
theorem orden_jornadas_9_antes_8_witness :
    (8 ∈ ([1, 2, 8, 9, 10, 3] : List ℕ)) ∧ (9 ∈ ([1, 2, 8, 9, 10, 3] : List ℕ)) ∧
    ordenJornadas (jornadasUnicas [1, 2, 8, 9, 10, 3]) = [1, 2, 3, 9, 8, 10] ∧
    (∃ a b, ordenJornadas (jornadasUnicas [1, 2, 8, 9, 10, 3]) = a ++ 9 :: 8 :: b ∧
      List.Sorted (· < ·) (a ++ b) ∧ (∀ x ∈ a ++ b, x ≠ 8 ∧ x ≠ 9)) :=
  ⟨by decide, by decide, by decide,
    orden_jornadas_9_antes_8 [1, 2, 8, 9, 10, 3] (by decide) (by decide)⟩

lemma previoValidos_minutos {rows : List FilaPartido} {b : AgregadoPrevio}
    (hb : b ∈ previoValidos rows) : 70 < b.minutos := by
  unfold previoValidos agruparPorJugador at hb
  obtain ⟨j, hj, heq⟩ := List.mem_map.mp hb
  have hj' : j ∈ (rows.filter
      (fun r => decide (r.jugador ∈ jugadoresValidos rows))).map (·.jugador) :=
    List.mem_dedup.mp hj
  obtain ⟨r, hr, hrj⟩ := List.mem_map.mp hj'
  have hjv : j ∈ jugadoresValidos rows := by
    rw [← hrj]
    exact of_decide_eq_true (List.mem_filter.mp hr).2
  have h70 : 70 < sumMinutosJugador rows j :=
    of_decide_eq_true (List.mem_filter.mp hjv).2
  have hfe : (rows.filter
        (fun r => decide (r.jugador ∈ jugadoresValidos rows))).filter
        (fun r => decide (r.jugador = j)) =
      rows.filter (fun r => decide (r.jugador = j)) := by
    rw [List.filter_filter]
    refine List.filter_congr ?_
    intro r2 hr2
    by_cases hq : r2.jugador = j
    · simp [hq, hjv]
    · simp [hq]
  rw [← heq]
  show 70 < sumaOpcion ((((rows.filter
      (fun r => decide (r.jugador ∈ jugadoresValidos rows))).filter
      (fun r => decide (r.jugador = j))).map (·.minutos)))
  rw [hfe]
  exact h70

/-- C9: at both standardization call sites the divisor is the summed
minutes of an aggregate that already passed the strict `> 70` eligibility
filter, so it is strictly positive and the division-by-zero case is
unreachable. -/
theorem division_guardada (rows rowsPrev : List FilaPartido)
    (a : AgregadoJugador) (b : AgregadoPrevio) :
    (a ∈ filtrarMayor70 (agruparJugadores rows) →
      70 < a.minutos ∧ 0 < a.minutos) ∧
    (b ∈ previoValidos rowsPrev → 70 < b.minutos ∧ 0 < b.minutos) := by
  constructor
  · intro ha
    have h70 : 70 < a.minutos := of_decide_eq_true (List.mem_filter.mp ha).2
    exact ⟨h70, by linarith⟩
  · intro hb
    have h70 := previoValidos_minutos hb
    exact ⟨h70, by linarith⟩

/-- C1: every standardized aggregate produced by the collective-bars
pipeline or by the previous-match computation carries strictly positive
summed minutes and its standardized values are exactly
`raw / minutes * 94`; an aggregate with zero minutes never reaches the
standardization step at either site. -/
theorem estandarizacion_a_94 (rows rowsPrev : List FilaPartido)
    (a : AgregadoStd) (b : PrevioStd) (c : AgregadoJugador) (j : String) :
    (a ∈ barrasJugadoresStd rows →
      0 < a.minutos ∧
      a.dTotalStd = a.dTotal / a.minutos * 94 ∧
      a.dHSRStd = a.dHSR / a.minutos * 94 ∧
      a.dSprintStd = a.dSprint / a.minutos * 94) ∧
    (c.minutos = 0 → c ∉ filtrarMayor70 (agruparJugadores rows)) ∧
    (b ∈ previoEstandarizado rowsPrev →
      0 < b.minutos ∧
      b.dTotalStd = b.dTotal / b.minutos * 94 ∧
      b.dHSRStd = b.dHSR / b.minutos * 94 ∧
      b.dSprintStd = b.dSprint / b.minutos * 94) ∧
    (sumMinutosJugador rowsPrev j = 0 → j ∉ jugadoresValidos rowsPrev) := by
  refine ⟨?_, ?_, ?_, ?_⟩
  · intro ha
    unfold barrasJugadoresStd at ha
    obtain ⟨a0, ha0, rfl⟩ := List.mem_map.mp ha
    have h70 : 70 < a0.minutos := of_decide_eq_true (List.mem_filter.mp ha0).2
    refine ⟨?_, ?_, ?_, ?_⟩ <;>
      simp [estandarizar, factor_estandarizacion]
    linarith
  · intro h0 hc
    have h70 : 70 < c.minutos := of_decide_eq_true (List.mem_filter.mp hc).2
    rw [h0] at h70
    linarith
  · intro hb
    unfold previoEstandarizado at hb
    obtain ⟨b0, hb0, rfl⟩ := List.mem_map.mp hb
    have h70 := previoValidos_minutos hb0
    refine ⟨?_, ?_, ?_, ?_⟩ <;> simp [estandarizarPrevio]
    linarith
  · intro h0 hj
    have h70 : 70 < sumMinutosJugador rowsPrev j :=
      of_decide_eq_true (List.mem_filter.mp hj).2
    rw [h0] at h70
    linarith

lemma procesaGrupo_spec {k : String × ℤ} {grupo : List FilaEntreno} {e : EntradaMicro}
    (he : procesaGrupo k grupo = some e) :
    ∃ vmf, valorMasFrecuente (grupo.filterMap (·.minutos)) = some vmf ∧
      filtraModa grupo vmf ≠ [] ∧
      e = { situacion := k.1
            fecha := k.2
            distancia := promedioOpcion ((filtraModa grupo vmf).map (·.distancia))
            numRegistros := (filtraModa grupo vmf).length
            tipo := "entrenamiento" } := by
  cases hv : valorMasFrecuente (grupo.filterMap (·.minutos)) with
  | none =>
    simp only [procesaGrupo, hv] at he
    exact Option.noConfusion he
  | some vmf =>
    simp only [procesaGrupo, hv] at he
    by_cases hf : filtraModa grupo vmf = []
    · rw [if_pos hf] at he
      exact Option.noConfusion he
    · rw [if_neg hf] at he
      injection he with he'
      exact ⟨vmf, rfl, hf, he'.symm⟩

lemma entradasEntrenamiento_tipo {rows : List FilaEntreno} {fi : Option ℤ}
    {e : EntradaMicro} (he : e ∈ entradasEntrenamiento rows fi) :
    e.tipo = "entrenamiento" := by
  unfold entradasEntrenamiento at he
  obtain ⟨k, _, hpk⟩ := List.mem_filterMap.mp he
  obtain ⟨vmf, _, _, rfl⟩ := procesaGrupo_spec hpk
  rfl

/-- C5: amended — the Microcycle Composer applies the mode-70pct
eligibility filter to each training group but reports the raw average of
the selected distance over the eligible rows (no 94-minute rescaling);
the 94-minute standardization is applied only to the reference-match
figure, whose reported value is the mean of the per-player standardized
distances. -/
theorem promedios_microciclo (k : String × ℤ) (grupo : List FilaEntreno)
    (e : EntradaMicro) (rowsPrev : List FilaPartido) (t : TipoDistancia) :
    (procesaGrupo k grupo = some e →
      ∃ vmf, valorMasFrecuente (grupo.filterMap (·.minutos)) = some vmf ∧
        e.distancia = promedioOpcion ((filtraModa grupo vmf).map (·.distancia)) ∧
        e.tipo = "entrenamiento") ∧
    (jugadoresValidos rowsPrev ≠ [] →
      distanciaPartidoPrevio rowsPrev t =
        promedio ((previoEstandarizado rowsPrev).map (distanciaStdSegunTipo t))) := by
  constructor
  · intro he
    obtain ⟨vmf, hv, _, rfl⟩ := procesaGrupo_spec he
    exact ⟨vmf, hv, rfl, rfl⟩
  · intro hne
    unfold distanciaPartidoPrevio
    rw [if_neg hne]

/-- C6: a round whose override configuration sets
`mostrar_partido_previo = false` never gets a match-tagged entry in its
composed microcycle, whatever previous-match telemetry exists. -/
theorem sin_partido_previo_config (jnum : String) (jint : ℤ)
    (rowsPrev : List FilaPartido) (rowsEnt : List FilaEntreno) (t : TipoDistancia)
    (hconf : mostrarPartidoPrevio jnum = false) (e : EntradaMicro)
    (he : e ∈ datosMicrociclo jnum jint rowsPrev rowsEnt t) :
    e.tipo ≠ "partido" := by
  unfold datosMicrociclo ordenaPorFecha at he
  rw [List.mem_insertionSort] at he
  rcases List.mem_append.mp he with he | he
  · exfalso
    cases hj : jornadaPrevia jnum jint with
    | none => simp [entradasPartidoPrevio, hj] at he
    | some jprev => simp [entradasPartidoPrevio, hj, hconf] at he
  · rw [entradasEntrenamiento_tipo he]
    decide

/-- Concrete match row: player "A", 94 summed minutes, used to exercise the
eligibility guard. -/
def filaGuardia : FilaPartido :=
  { jornada := "J2", partido := "Partido contra Y", tarea := "1 parte",
    fecha := 20240901, jugador := "A", minutos := some 94, dTotal := some 940,
    dHSR := some 94, dSprint := some 0, velMax := some 30 }

/-- The player-match aggregate produced from `filaGuardia`. -/
def agregadoGuardia : AgregadoJugador :=
  { jornada := "J2", partido := "Partido contra Y", jugador := "A",
    minutos := 94, dTotal := 940, dHSR := 94, dSprint := 0 }

/-- The per-player previous-match aggregate produced from `filaGuardia`. -/
def previoGuardia : AgregadoPrevio :=
  { jugador := "A", dTotal := 940, dHSR := 94, dSprint := 0, minutos := 94 }

/-- C9 witness: a concrete aggregate passes both filters and both
positivity conclusions hold for it. -/
theorem division_guardada_witness :
    (agregadoGuardia ∈ filtrarMayor70 (agruparJugadores [filaGuardia]) ∧
      70 < agregadoGuardia.minutos ∧ 0 < agregadoGuardia.minutos) ∧
    (previoGuardia ∈ previoValidos [filaGuardia] ∧
      70 < previoGuardia.minutos ∧ 0 < previoGuardia.minutos) := by
  have h1 : agregadoGuardia ∈ filtrarMayor70 (agruparJugadores [filaGuardia]) := by
    norm_num [agruparJugadores, sumaOpcion, filtrarMayor70, filaGuardia,
      agregadoGuardia, List.mem_filter]
  have h2 : previoGuardia ∈ previoValidos [filaGuardia] := by
    norm_num [previoValidos, agruparPorJugador, jugadoresValidos,
      sumMinutosJugador, sumaOpcion, filaGuardia, previoGuardia, List.mem_filter]
  have h := division_guardada [filaGuardia] [filaGuardia] agregadoGuardia previoGuardia
  exact ⟨⟨h1, h.1 h1⟩, ⟨h2, h.2 h2⟩⟩

/-- Concrete match row used to exercise the standardization equalities. -/
def filaEstandar : FilaPartido :=
  { jornada := "J3", partido := "Partido contra Z", tarea := "2 parte",
    fecha := 20240914, jugador := "B", minutos := some 94, dTotal := some 940,
    dHSR := some 94, dSprint := some 0, velMax := some 29 }

/-- The standardized bars aggregate produced from `filaEstandar`
(94 minutes, so each standardized value equals the raw one). -/
def estandarBarras : AgregadoStd :=
  { jornada := "J3", partido := "Partido contra Z", jugador := "B",
    minutos := 94, dTotal := 940, dHSR := 94, dSprint := 0,
    dTotalStd := 940, dHSRStd := 94, dSprintStd := 0 }

/-- The standardized previous-match aggregate produced from `filaEstandar`. -/
def estandarPrevio : PrevioStd :=
  { jugador := "B", dTotal := 940, dHSR := 94, dSprint := 0, minutos := 94,
    dTotalStd := 940, dHSRStd := 94, dSprintStd := 0 }

/-- A player-match aggregate with zero summed minutes. -/
def agregadoCero : AgregadoJugador :=
  { jornada := "J3", partido := "Partido contra Z", jugador := "C",
    minutos := 0, dTotal := 0, dHSR := 0, dSprint := 0 }

/-- C1 witness: the standardization equalities hold at a concrete member
of both pipelines, and zero-minute aggregates are excluded at both sites. -/
theorem estandarizacion_a_94_witness :
    (estandarBarras ∈ barrasJugadoresStd [filaEstandar] ∧
      0 < estandarBarras.minutos ∧
      estandarBarras.dTotalStd = estandarBarras.dTotal / estandarBarras.minutos * 94 ∧
      estandarBarras.dHSRStd = estandarBarras.dHSR / estandarBarras.minutos * 94 ∧
      estandarBarras.dSprintStd = estandarBarras.dSprint / estandarBarras.minutos * 94) ∧
    (agregadoCero.minutos = 0 ∧
      agregadoCero ∉ filtrarMayor70 (agruparJugadores [filaEstandar])) ∧
    (estandarPrevio ∈ previoEstandarizado [filaEstandar] ∧
      0 < estandarPrevio.minutos ∧
      estandarPrevio.dTotalStd = estandarPrevio.dTotal / estandarPrevio.minutos * 94 ∧
      estandarPrevio.dHSRStd = estandarPrevio.dHSR / estandarPrevio.minutos * 94 ∧
      estandarPrevio.dSprintStd = estandarPrevio.dSprint / estandarPrevio.minutos * 94) ∧
    (sumMinutosJugador [filaEstandar] "Z" = 0 ∧
      "Z" ∉ jugadoresValidos [filaEstandar]) := by
  have h := estandarizacion_a_94 [filaEstandar] [filaEstandar] estandarBarras
    estandarPrevio agregadoCero "Z"
  have h1 : estandarBarras ∈ barrasJugadoresStd [filaEstandar] := by
    norm_num [barrasJugadoresStd, agruparJugadores, filtrarMayor70, estandarizar,
      factor_estandarizacion, sumaOpcion, filaEstandar, estandarBarras,
      List.mem_filter]
  have h3 : estandarPrevio ∈ previoEstandarizado [filaEstandar] := by
    norm_num [previoEstandarizado, previoValidos, agruparPorJugador,
      jugadoresValidos, sumMinutosJugador, estandarizarPrevio, sumaOpcion,
      filaEstandar, estandarPrevio, List.mem_filter]
  have h0 : agregadoCero.minutos = 0 := rfl
  have hz : sumMinutosJugador [filaEstandar] "Z" = 0 := by
    simp [sumMinutosJugador, sumaOpcion, filaEstandar, List.filter_cons]
  exact ⟨⟨h1, h.1 h1⟩, ⟨h0, h.2.1 h0⟩, ⟨h3, h.2.2.1 h3⟩, ⟨hz, h.2.2.2 hz⟩⟩

/-- Concrete training group with minutes `[90, 90, 90, 45, 20]`. -/
def grupoModa : List FilaEntreno :=
  [{ fecha := 20240901, situacion := "MD-2", jugador := "A", minutos := some 90,
     distancia := some 5000 },
   { fecha := 20240901, situacion := "MD-2", jugador := "B", minutos := some 90,
     distancia := some 5100 },
   { fecha := 20240901, situacion := "MD-2", jugador := "C", minutos := some 90,
     distancia := some 5200 },
   { fecha := 20240901, situacion := "MD-2", jugador := "D", minutos := some 45,
     distancia := some 2500 },
   { fecha := 20240901, situacion := "MD-2", jugador := "E", minutos := some 20,
     distancia := some 1200 }]

/-- C2 witness: on minutes `[90, 90, 90, 45, 20]` the mode is 90, the
threshold is 63, and exactly the three 90-minute rows survive. -/
theorem filtro_moda_70pct_witness :
    valorMasFrecuente (grupoModa.filterMap (·.minutos)) = some 90 ∧
    umbralModa 90 = 63 ∧
    filtraModa grupoModa 90 =
      [{ fecha := 20240901, situacion := "MD-2", jugador := "A", minutos := some 90,
         distancia := some 5000 },
       { fecha := 20240901, situacion := "MD-2", jugador := "B", minutos := some 90,
         distancia := some 5100 },
       { fecha := 20240901, situacion := "MD-2", jugador := "C", minutos := some 90,
         distancia := some 5200 }] ∧
    ({ fecha := 20240901, situacion := "MD-2", jugador := "A", minutos := some 90,
       distancia := some 5000 } ∈ filtraModa grupoModa 90 ↔
      { fecha := 20240901, situacion := "MD-2", jugador := "A", minutos := some 90,
        distancia := some 5000 } ∈ grupoModa ∧
      ∃ v, ({ fecha := 20240901, situacion := "MD-2", jugador := "A",
              minutos := some 90, distancia := some 5000 } : FilaEntreno).minutos =
          some v ∧ umbralModa 90 ≤ v) := by
  have hm : valorMasFrecuente (grupoModa.filterMap (·.minutos)) = some 90 := by
    decide
  have hf : filtraModa grupoModa 90 =
      [{ fecha := 20240901, situacion := "MD-2", jugador := "A", minutos := some 90,
         distancia := some 5000 },
       { fecha := 20240901, situacion := "MD-2", jugador := "B", minutos := some 90,
         distancia := some 5100 },
       { fecha := 20240901, situacion := "MD-2", jugador := "C", minutos := some 90,
         distancia := some 5200 }] := by
    norm_num [filtraModa, umbralModa, grupoModa]
  exact ⟨hm, by norm_num [umbralModa], hf, filtro_moda_70pct grupoModa 90 hm _⟩

/-- Concrete one-row training group: 70 minutes, 700 meters. -/
def grupoPromedio : List FilaEntreno :=
  [{ fecha := 20240903, situacion := "MD-1", jugador := "A", minutos := some 70,
     distancia := some 700 }]

/-- The entry the pipeline produces from `grupoPromedio`: the raw mean. -/
def entradaPromedio : EntradaMicro :=
  { situacion := "MD-1", fecha := 20240903, distancia := 700, numRegistros := 1,
    tipo := "entrenamiento" }

lemma entradasEntrenamiento_eval (rows rowsF : List FilaEntreno) (fi : Option ℤ)
    (k : String × ℤ)
    (hF : (match fi with
      | some d => rows.filter (fun r => decide (d ≤ r.fecha))
      | none => rows) = rowsF)
    (hkeys : (rowsF.map (fun r => (r.situacion, r.fecha))).dedup = [k])
    (hfil : rowsF.filter (fun r => decide ((r.situacion, r.fecha) = k)) = rowsF) :
    entradasEntrenamiento rows fi = (procesaGrupo k rowsF).toList := by
  simp only [entradasEntrenamiento, hF, hkeys, List.filterMap_cons,
    List.filterMap_nil, hfil]
  cases procesaGrupo k rowsF <;> simp

lemma procesaGrupo_promedio_eval :
    procesaGrupo ("MD-1", 20240903) grupoPromedio = some entradaPromedio := by
  have hvm : valorMasFrecuente (grupoPromedio.filterMap (·.minutos)) = some 70 := by
    decide
  have hfm : filtraModa grupoPromedio 70 = grupoPromedio := by
    simp only [filtraModa, grupoPromedio, List.filter_cons, List.filter_nil]
    norm_num [umbralModa]
  simp only [procesaGrupo, hvm, hfm]
  norm_num [promedioOpcion, promedio, grupoPromedio, entradaPromedio,
    List.filterMap_cons, List.filterMap_nil]

/-- C5: counterexample — for a training group with one eligible row of 70
minutes and 700 meters the pipeline reports 700, the raw mean, which
differs from the 94-minute standardized average `700 / 70 * 94 = 940`
the claim asserts. -/
theorem entreno_sin_estandarizar_contraejemplo :
    entradasEntrenamiento grupoPromedio none = [entradaPromedio] ∧
    entradaPromedio.distancia = 700 ∧
    (700 : ℚ) ≠ 700 / 70 * 94 := by
  refine ⟨?_, rfl, by norm_num⟩
  rw [entradasEntrenamiento_eval grupoPromedio grupoPromedio none
    ("MD-1", 20240903) rfl ?_ ?_, procesaGrupo_promedio_eval]
  · rfl
  · simp [grupoPromedio]
  · simp [grupoPromedio, List.filter_cons]

/-- Concrete previous-match row for the standardized reference figure. -/
def filaPrevio : FilaPartido :=
  { jornada := "J4", partido := "Partido contra W", tarea := "1 parte",
    fecha := 20240830, jugador := "D", minutos := some 94, dTotal := some 940,
    dHSR := some 94, dSprint := some 0, velMax := some 28 }

/-- C5 witness: the training entry of `grupoPromedio` carries the raw
eligible-row average, and the reference-match figure of `filaPrevio` is
its standardized mean. -/
theorem promedios_microciclo_witness :
    procesaGrupo ("MD-1", 20240903) grupoPromedio = some entradaPromedio ∧
    (∃ vmf, valorMasFrecuente (grupoPromedio.filterMap (·.minutos)) = some vmf ∧
      entradaPromedio.distancia =
        promedioOpcion ((filtraModa grupoPromedio vmf).map (·.distancia)) ∧
      entradaPromedio.tipo = "entrenamiento") ∧
    jugadoresValidos [filaPrevio] ≠ [] ∧
    distanciaPartidoPrevio [filaPrevio] TipoDistancia.total =
      promedio ((previoEstandarizado [filaPrevio]).map
        (distanciaStdSegunTipo TipoDistancia.total)) := by
  have hp : procesaGrupo ("MD-1", 20240903) grupoPromedio = some entradaPromedio :=
    procesaGrupo_promedio_eval
  have hv : jugadoresValidos [filaPrevio] ≠ [] := by
    norm_num [jugadoresValidos, sumMinutosJugador, sumaOpcion, filaPrevio]
  have h := promedios_microciclo ("MD-1", 20240903) grupoPromedio entradaPromedio
    [filaPrevio] TipoDistancia.total
  exact ⟨hp, h.1 hp, hv, h.2 hv⟩

/-- Concrete training row for round J5, dated after its custom window
start. -/
def entrenoCinco : List FilaEntreno :=
  [{ fecha := 20240910, situacion := "MD-1", jugador := "A", minutos := some 60,
     distancia := some 500 }]

/-- The training entry the J5 microcycle produces from `entrenoCinco`. -/
def entradaCinco : EntradaMicro :=
  { situacion := "MD-1", fecha := 20240910, distancia := 500, numRegistros := 1,
    tipo := "entrenamiento" }

/-- C6 witness: round J5 is configured with
`mostrar_partido_previo = false`; its composed microcycle over a concrete
data set contains the training entry and that entry is not match-tagged. -/
theorem sin_partido_previo_config_witness :
    mostrarPartidoPrevio "J5" = false ∧
    entradaCinco ∈ datosMicrociclo "J5" 5 [] entrenoCinco TipoDistancia.total ∧
    entradaCinco.tipo ≠ "partido" := by
  have hc : mostrarPartidoPrevio "J5" = false := by decide
  have hvm : valorMasFrecuente (entrenoCinco.filterMap (·.minutos)) = some 60 := by
    decide
  have hfm : filtraModa entrenoCinco 60 = entrenoCinco := by
    simp only [filtraModa, entrenoCinco, List.filter_cons, List.filter_nil]
    norm_num [umbralModa]
  have hpg : procesaGrupo ("MD-1", 20240910) entrenoCinco = some entradaCinco := by
    simp only [procesaGrupo, hvm, hfm]
    norm_num [promedioOpcion, promedio, entrenoCinco, entradaCinco,
      List.filterMap_cons, List.filterMap_nil]
  have hprev : entradasPartidoPrevio "J5" 5 [] TipoDistancia.total = [] := by
    decide
  have hent : entradasEntrenamiento entrenoCinco (some 20240908) = [entradaCinco] := by
    rw [entradasEntrenamiento_eval entrenoCinco entrenoCinco (some 20240908)
      ("MD-1", 20240910) ?_ ?_ ?_, hpg]
    · rfl
    · simp [entrenoCinco, List.filter_cons]
    · simp [entrenoCinco]
    · simp [entrenoCinco, List.filter_cons]
  have hm : entradaCinco ∈ datosMicrociclo "J5" 5 [] entrenoCinco TipoDistancia.total := by
    have hfi : fechaInicioCustom "J5" = some 20240908 := by decide
    simp [datosMicrociclo, hfi, hprev, hent, ordenaPorFecha, List.insertionSort,
      List.orderedInsert]
  exact ⟨hc, hm,
    sin_partido_previo_config "J5" 5 [] entrenoCinco TipoDistancia.total hc
      entradaCinco hm⟩

/-- A player-match aggregate with 80 summed minutes. -/
def agregadoOchenta : AgregadoJugador :=
  { jornada := "J1", partido := "P1", jugador := "A", minutos := 80,
    dTotal := 8000, dHSR := 400, dSprint := 100 }

/-- A per-player aggregate with 80 summed minutes. -/
def previoOchenta : AgregadoPrevio :=
  { jugador := "A", dTotal := 8000, dHSR := 400, dSprint := 100, minutos := 80 }

/-- A leaderboard aggregate with exactly 90 summed minutes. -/
def individualNoventa : AgregadoIndividual :=
  { jugador := "A", dTotalProm := 9000, dHSRProm := 450, dSprintProm := 120,
    velMax := some 31, minutos := 90 }

/-- C4 witness: the three membership characterizations instantiated at
concrete aggregates. -/
theorem umbrales_fijos_eligibilidad_witness :
    (agregadoOchenta ∈ filtrarMayor70 [agregadoOchenta] ↔
      agregadoOchenta ∈ [agregadoOchenta] ∧ 70 < agregadoOchenta.minutos) ∧
    (previoOchenta ∈ filtroScatter [previoOchenta] ↔
      previoOchenta ∈ [previoOchenta] ∧ 70 < previoOchenta.minutos) ∧
    (individualNoventa ∈ filtroIndividual [individualNoventa] ↔
      individualNoventa ∈ [individualNoventa] ∧ 90 ≤ individualNoventa.minutos) :=
  umbrales_fijos_eligibilidad [agregadoOchenta] agregadoOchenta [previoOchenta]
    previoOchenta [individualNoventa] individualNoventa

/-- C8 witness: the envelope shape instantiated at the error case. -/
theorem sobres_respuesta_witness :
    "status" ∈ (respuesta_barras_colectivas true).claves ∧
    "status" ∉ (respuesta_resumen_fisico true).claves ∧
    (respuesta_resumen_fisico true).status = none :=
  ⟨(sobres_respuesta true).1.1, (sobres_respuesta true).2.2.2.2.2.2.2.1,
    (sobres_respuesta true).2.2.2.2.2.2.2.2⟩
